import Mathlib

/-
Verification development for the Rust-SAF bridge layer.

The development shallowly embeds the two core Rust modules:

  * jni_utils.rs : the bridge context (one-time initialized ClassLoader cache,
    thread attachment, class resolution, cleanup);
  * ndk_saf.rs   : the AndroidFile document-entity layer (resolution from a
    tree URL or a DocumentFile object, open / list / create / remove).

The managed runtime (JNI) is an external collaborator.  It is modelled as a
record of fallible primitives (Env) over a concrete object universe
(ObjVal); each primitive corresponds to one JNI entry point used by the
source.  Stateful globals of jni_utils.rs (the Once guard, the JavaVM cell,
the ClassLoader cache, the findClass method-id cache) are an explicit state
record (SafState) threaded through the operations; each Rust function is a
state transition or a value computation in the Except monad.  Rust RwLock
acquisition only fails on poisoning (a panic while holding the lock), which
has no counterpart in this panic-free sequential model, so lock acquisition
always succeeds here.  The structured query cursor is modelled by the list
of row read-results the platform would hand back through moveToNext and
the per-column getters; a moveToNext failure is observationally the same as
a row whose first column read fails, so the list form loses no behavior.

Rust String comparison and prefix tests are byte-lexicographic over UTF-8;
over valid UTF-8 this order coincides with code-point lexicographic order,
which the computable helpers below implement over the char list of a Lean
String.
-/

deriving instance DecidableEq for Except

/-- Errors of the embedded layer.  anyhowMsg models anyhow error messages
created by the Rust code itself; wrongJValueType models the jni crate error
returned by the typed accessors l / z / j / i / v on a mismatched value;
nullPtr models jni NullPtr errors; platform is an arbitrary diagnostic
produced by the host platform and carried through unchanged. -/
inductive SafError where
  | anyhowMsg (msg : String)
  | wrongJValueType
  | nullPtr (msg : String)
  | platform (code : Nat)
deriving DecidableEq, Repr

/-- Concrete universe of foreign (JNI) object references.  nullv is the null
reference; str carries a Java string; uri a parsed android.net.Uri; doc a
DocumentFile positioned at a locator; cls a resolved class; the remaining
constructors are the fixed singleton objects and handles the source touches. -/
inductive ObjVal where
  | nullv
  | str (s : String)
  | uri (s : String)
  | doc (u : String)
  | cls (n : String)
  | ctxObj
  | appObj
  | threadObj
  | resolverObj
  | loaderObj
  | cursorObj (id : Nat)
  | arr (id : Nat)
  | other (id : Nat)
deriving DecidableEq, Repr

/-- Null test on a foreign reference (JObject::is_null). -/
def ObjVal.isNull : ObjVal → Bool
  | .nullv => true
  | _ => false

/-- Values returned by JNI calls (jni JValueGen). -/
inductive JValue where
  | obj (o : ObjVal)
  | bool (b : Bool)
  | long (v : Int)
  | int (v : Int)
  | void
deriving DecidableEq, Repr

/-- Typed accessor JValueGen::l (object). -/
def JValue.l : JValue → Except SafError ObjVal
  | .obj o => .ok o
  | _ => .error .wrongJValueType

/-- Typed accessor JValueGen::z (boolean). -/
def JValue.z : JValue → Except SafError Bool
  | .bool b => .ok b
  | _ => .error .wrongJValueType

/-- Typed accessor JValueGen::j (long). -/
def JValue.j : JValue → Except SafError Int
  | .long v => .ok v
  | _ => .error .wrongJValueType

/-- Typed accessor JValueGen::i (int). -/
def JValue.i : JValue → Except SafError Int
  | .int v => .ok v
  | _ => .error .wrongJValueType

/-- Typed accessor JValueGen::v (void). -/
def JValue.v : JValue → Except SafError Unit
  | .void => .ok ()
  | _ => .error .wrongJValueType

/-- Durable global reference to a foreign object (jni GlobalRef). -/
structure GlobalRef where
  obj : ObjVal
deriving DecidableEq, Repr

/-- Resolved method identifier (jni JMethodID), abstracted to a number. -/
abbrev MethodId : Type := Nat

/-- Class designator accepted by the jni call interfaces: either a
fully-qualified name string or an already-resolved class object. -/
inductive ClassDesc where
  | byName (n : String)
  | byClass (c : ObjVal)
deriving DecidableEq, Repr

/-- Row of the structured children query: the four column read-results the
cursor would produce for this row (getString 0, getString 1, getLong 2,
getString 3), kept fallible because each is a foreign call. -/
structure CursorRow where
  docIdRes : Except SafError JValue
  nameRes : Except SafError JValue
  sizeRes : Except SafError JValue
  mimeRes : Except SafError JValue

/-- The foreign-call interface of the host platform.  One field per JNI
primitive the source uses; the platform is deterministic, and a claim about
all platforms is a claim independent of foreign behavior. -/
structure Env where
  attachCurrentThread : Except SafError Unit
  findClassDefault : String → Except SafError ObjVal
  newString : String → Except SafError ObjVal
  getString : ObjVal → Except SafError String
  callMethod : ObjVal → String → String → List JValue → Except SafError JValue
  callStaticMethod : ClassDesc → String → String → List JValue → Except SafError JValue
  callMethodId : ObjVal → MethodId → List JValue → Except SafError JValue
  newObject : ClassDesc → String → List JValue → Except SafError ObjVal
  newGlobalRef : ObjVal → Except SafError GlobalRef
  getStaticField : String → String → String → Except SafError JValue
  getMethodId : ObjVal → String → String → Except SafError MethodId
  getObjectClass : ObjVal → Except SafError ObjVal
  newObjectArray : Nat → String → ObjVal → Except SafError ObjVal
  setObjectArrayElement : ObjVal → Nat → ObjVal → Except SafError Unit
  cursorRows : ObjVal → List CursorRow

/-- Mutable global state of jni_utils.rs: the Once guard (INIT), the stored
JavaVM, the cached ClassLoader global reference, the cached findClass method
id, plus a ghost counter of how many times the Once body (the setup side
effects) has executed. -/
structure SafState where
  initDone : Bool
  jvm : Option Nat
  classLoader : Option GlobalRef
  findClassMethod : Option MethodId
  setupRuns : Nat
deriving DecidableEq, Repr

/-- Library-load state: nothing initialized yet. -/
def freshState : SafState :=
  { initDone := false, jvm := none, classLoader := none,
    findClassMethod := none, setupRuns := 0 }

/-- Rust usize cast of an i64 (s as usize on a 64-bit target):
twos-complement reinterpretation. -/
def usizeOfI64 (n : Int) : Nat := (n % (2 : Int) ^ 64).toNat

/-- Byte-lexicographic (equivalently code-point-lexicographic) order on
char lists, the order Rust String::cmp induces on valid UTF-8. -/
def charListLe : List Char → List Char → Bool
  | [], _ => true
  | _ :: _, [] => false
  | a :: as, b :: bs =>
    if a.toNat < b.toNat then true
    else if b.toNat < a.toNat then false
    else charListLe as bs

/-- Rust str::starts_with: byte prefix test, which over valid UTF-8 agrees
with the char-list prefix test. -/
def strStartsWith (s p : String) : Bool := p.data.isPrefixOf s.data

/-- Rust String::replace with a single-char pattern and single-char
replacement, as used by setup_class_loader (replace of dot by slash). -/
def replaceDotWithSlash (s : String) : String :=
  String.mk (s.data.map fun c => if c = '.' then '/' else c)

/-- jni_utils::get_env: reads the stored JavaVM (error if absent) and
attaches the calling thread. -/
def get_env (env : Env) (s : SafState) : Except SafError Unit :=
  match s.jvm with
  | none => .error (.nullPtr
      "JavaVM not initialized via JNI_OnLoad - ensure initialize_class_loader was called")
  | some _ => env.attachCurrentThread

/-- jni_utils::setup_class_loader: walks from ActivityThread to the
application package, resolves the MainActivity class of the package, takes
its ClassLoader, wraps it in a global reference, and resolves the findClass
method id on java/lang/ClassLoader. -/
def setup_class_loader (env : Env) : Except SafError (GlobalRef × MethodId) := do
  let activityThreadClass ← env.findClassDefault "android/app/ActivityThread"
  let activityThread ← env.callStaticMethod (.byClass activityThreadClass)
    "currentActivityThread" "()Landroid/app/ActivityThread;" []
  let atObj ← activityThread.l
  let application ← env.callMethod atObj "getApplication" "()Landroid/app/Application;" []
  let appO ← application.l
  let packageNameV ← env.callMethod appO "getPackageName" "()Ljava/lang/String;" []
  let pkgO ← packageNameV.l
  let packageName ← env.getString pkgO
  let mainActivityClassName := replaceDotWithSlash packageName ++ "/MainActivity"
  let mainActivityClass ← env.findClassDefault mainActivityClassName
  let classClass ← env.getObjectClass mainActivityClass
  let classLoaderClass ← env.findClassDefault "java/lang/ClassLoader"
  let _getClassLoaderMethod ← env.getMethodId classClass "getClassLoader"
    "()Ljava/lang/ClassLoader;"
  let classLoaderObj ← env.callMethod mainActivityClass "getClassLoader"
    "()Ljava/lang/ClassLoader;" []
  let clO ← classLoaderObj.l
  let classLoader ← env.newGlobalRef clO
  let findClassMethod ← env.getMethodId classLoaderClass "findClass"
    "(Ljava/lang/String;)Ljava/lang/Class;"
  pure (classLoader, findClassMethod)

/-- jni_utils::initialize_class_loader: under the Once guard, stores the
JavaVM (JavaVM::from_raw fails exactly on a null pointer, modelled by
vm = 0; the failure is logged, not propagated) and runs setup_class_loader,
caching both results on success and neither on failure.  The function
returns Ok in every case; the ghost counter setupRuns counts executions of
the Once body. -/
def initialize_class_loader (env : Env) (vm : Nat) (s : SafState) :
    SafState × Except SafError Unit :=
  if s.initDone then (s, .ok ())
  else
    let s1 := { s with initDone := true, setupRuns := s.setupRuns + 1 }
    let s2 := if vm ≠ 0 then { s1 with jvm := some vm } else s1
    match setup_class_loader env with
    | .ok (classLoader, findClassMethod) =>
        ({ s2 with classLoader := some classLoader,
                   findClassMethod := some findClassMethod }, .ok ())
    | .error _ => (s2, .ok ())

/-- jni_utils::find_class: attaches through get_env, then, when the cached
ClassLoader is present, invokes its findClass method by name and signature
through call_method; otherwise falls back to the default FindClass entry
point of the runtime. -/
def find_class (env : Env) (s : SafState) (name : String) : Except SafError ObjVal := do
  get_env env s
  match s.classLoader with
  | some classLoader => do
    let classNameJstring ← env.newString name
    let result ← env.callMethod classLoader.obj "findClass"
      "(Ljava/lang/String;)Ljava/lang/Class;" [JValue.obj classNameJstring]
    result.l
  | none => env.findClassDefault name

/-- Modelled from the spec: resolve_class resolves a class by
fully-qualified name using the cached resolver and the cached find-class
method identifier when the bridge is initialized (so the identifier is not
re-resolved per call), and otherwise falls back to the default resolution
entry point.  This definition follows the spec wording and exists only to
be compared with find_class, which is translated from the source. -/
def find_class_spec (env : Env) (s : SafState) (name : String) : Except SafError ObjVal := do
  get_env env s
  match s.classLoader, s.findClassMethod with
  | some classLoader, some findClassMethod => do
    let classNameJstring ← env.newString name
    let result ← env.callMethodId classLoader.obj findClassMethod
      [JValue.obj classNameJstring]
    result.l
  | _, _ => env.findClassDefault name

/-- jni_utils::cleanup_class_loader: clears the ClassLoader cache, the
method-id cache and the JavaVM cell.  The Once guard is not reset. -/
def cleanup_class_loader (s : SafState) : SafState :=
  { s with classLoader := none, findClassMethod := none, jvm := none }

/-- jni_utils::is_class_loader_initialized. -/
def is_class_loader_initialized (s : SafState) : Bool :=
  s.classLoader.isSome && s.findClassMethod.isSome && s.jvm.isSome

/-- Serialized execution of a sequence of initialize_class_loader calls.
Once serializes its body and blocks concurrent callers until the first
completes, so any concurrent schedule of initialize calls is observationally
one of these serializations. -/
def runInits : List (Env × Nat) → SafState → SafState
  | [], s => s
  | (env, vm) :: rest, s => runInits rest (initialize_class_loader env vm s).1

/-- One atomic transition of the bridge state: an initialize call, a
resolve_class call (which does not write the state), or a teardown. -/
inductive BridgeStep : SafState → SafState → Prop
  | init (env : Env) (vm : Nat) (s : SafState) :
      BridgeStep s (initialize_class_loader env vm s).1
  | resolve (env : Env) (name : String) (s : SafState) : BridgeStep s s
  | cleanup (s : SafState) : BridgeStep s (cleanup_class_loader s)

/-- States reachable from library load through bridge operations. -/
inductive BridgeReachable : SafState → Prop
  | start : BridgeReachable freshState
  | step {s s' : SafState} : BridgeReachable s → BridgeStep s s' → BridgeReachable s'

/-- ndk_saf::AndroidFile: the document-entity value. -/
structure AndroidFile where
  filename : String
  size : Nat
  path : String
  url : String
  is_dir : Bool
  document_file : GlobalRef
deriving DecidableEq, Repr

/-- Ascending-name order used by list_files (sort_by on filename with
Rust String::cmp). -/
def fileNameLe (a b : AndroidFile) : Prop :=
  charListLe a.filename.data b.filename.data = true

instance : DecidableRel fileNameLe := fun a b =>
  inferInstanceAs (Decidable (charListLe a.filename.data b.filename.data = true))

/-- ndk_saf::get_global_context: resolves ActivityThread through the bridge,
obtains the current application object and wraps it durably. -/
def get_global_context (env : Env) (s : SafState) : Except SafError GlobalRef := do
  let activityThread ← find_class env s "android/app/ActivityThread"
  let currentActivityThread ← env.callStaticMethod (.byClass activityThread)
    "currentActivityThread" "()Landroid/app/ActivityThread;" []
  let catObj ← currentActivityThread.l
  let application ← env.callMethod catObj "getApplication"
    "()Landroid/app/Application;" []
  let appO ← application.l
  env.newGlobalRef appO

/-- ndk_saf::from_document_file: rejects a null DocumentFile, then reads
name, size, uri (path and url), and the directory flag from the foreign
object, and wraps a durable reference to it.  The directory flag is read
with z().unwrap_or(false): a failure of the call itself propagates, but a
wrong-typed return value is replaced by false. -/
def from_document_file (env : Env) (s : SafState) (document_file : ObjVal) :
    Except SafError AndroidFile :=
  if document_file.isNull then
    .error (.anyhowMsg "The provided DocumentFile object is null")
  else do
    get_env env s
    let nameV ← env.callMethod document_file "getName" "()Ljava/lang/String;" []
    let nameO ← nameV.l
    let filename ← env.getString nameO
    let sizeV ← env.callMethod document_file "length" "()J" []
    let sizeJ ← sizeV.j
    let size := usizeOfI64 sizeJ
    let uriV ← env.callMethod document_file "getUri" "()Landroid/net/Uri;" []
    let uri ← uriV.l
    let pathV ← env.callMethod uri "getPath" "()Ljava/lang/String;" []
    let pathO ← pathV.l
    let path ← env.getString pathO
    let urlV ← env.callMethod uri "toString" "()Ljava/lang/String;" []
    let urlO ← urlV.l
    let url ← env.getString urlO
    let isDirV ← env.callMethod document_file "isDirectory" "()Z" []
    let is_dir := match isDirV.z with
      | .ok b => b
      | .error _ => false
    let document_file_ref ← env.newGlobalRef document_file
    pure { filename, size, path, url, is_dir, document_file := document_file_ref }

/-- ndk_saf::from_tree_url: parses the locator, resolves the tree root
DocumentFile for it, and either returns the root directly (when the root
URI string starts with the input URI string) or synthesizes a
TreeDocumentFile child at the locator without an intermediate listing. -/
def from_tree_url (env : Env) (s : SafState) (url : String) : Except SafError AndroidFile := do
  get_env env s
  let context ← get_global_context env s
  let urlStr ← env.newString url
  let uri ← (← env.callStaticMethod (.byName "android/net/Uri") "parse"
    "(Ljava/lang/String;)Landroid/net/Uri;" [JValue.obj urlStr]).l
  let parent ← (← env.callStaticMethod
    (.byName "androidx/documentfile/provider/DocumentFile") "fromTreeUri"
    "(Landroid/content/Context;Landroid/net/Uri;)Landroidx/documentfile/provider/DocumentFile;"
    [JValue.obj context.obj, JValue.obj uri]).l
  let parentUri ← (← env.callMethod parent "getUri" "()Landroid/net/Uri;" []).l
  let parentUriStr ← (← env.callMethod parentUri "toString" "()Ljava/lang/String;" []).l
  let inputUriStr ← (← env.callMethod uri "toString" "()Ljava/lang/String;" []).l
  let parentStr ← env.getString parentUriStr
  let inputStr ← env.getString inputUriStr
  if strStartsWith parentStr inputStr then
    from_document_file env s parent
  else do
    let treeDocumentFileClass ← find_class env s
      "androidx/documentfile/provider/TreeDocumentFile"
    let document_file ← env.newObject (.byClass treeDocumentFileClass)
      "(Landroidx/documentfile/provider/DocumentFile;Landroid/content/Context;Landroid/net/Uri;)V"
      [JValue.obj parent, JValue.obj context.obj, JValue.obj uri]
    from_document_file env s document_file

/-- Native byte-stream handle produced by open: a raw file descriptor
detached from platform-managed lifetime (std::fs::File::from_raw_fd). -/
structure FileHandle where
  fd : Int
deriving DecidableEq, Repr

/-- ndk_saf::open_content_url: resolves the ContentResolver, parses the
locator, opens a ParcelFileDescriptor in the requested mode and detaches
the raw descriptor, transferring ownership to the native side. -/
def open_content_url (env : Env) (s : SafState) (url open_mode : String) :
    Except SafError FileHandle := do
  get_env env s
  let context ← get_global_context env s
  let contentResolver ← (← env.callMethod context.obj "getContentResolver"
    "()Landroid/content/ContentResolver;" []).l
  let urlStr ← env.newString url
  let uri ← (← env.callStaticMethod (.byName "android/net/Uri") "parse"
    "(Ljava/lang/String;)Landroid/net/Uri;" [JValue.obj urlStr]).l
  let modeStr ← env.newString open_mode
  let parcelFd ← (← env.callMethod contentResolver "openFileDescriptor"
    "(Landroid/net/Uri;Ljava/lang/String;)Landroid/os/ParcelFileDescriptor;"
    [JValue.obj uri, JValue.obj modeStr]).l
  let fd ← (← env.callMethod parcelFd "detachFd" "()I" []).i
  pure { fd }

/-- AndroidFileOps::open: fails up front on a directory entity, otherwise
opens the content URL of the entity. -/
def AndroidFile.«open» (env : Env) (s : SafState) (self : AndroidFile)
    (open_mode : String) : Except SafError FileHandle :=
  if self.is_dir then .error (.anyhowMsg "The provided URL points to a directory")
  else open_content_url env s self.url open_mode

/-- Signature string of the ContentResolver query call. -/
def query_sig : String :=
  "(Landroid/net/Uri;[Ljava/lang/String;Ljava/lang/String;[Ljava/lang/String;Ljava/lang/String;)Landroid/database/Cursor;"

/-- Processing of one cursor row inside AndroidFileOps::list_files: read the
four columns, build the child document URI from the parent URI and the
document id, derive path and url, classify by MIME type against the
directory MIME constant, build a single-document DocumentFile for the child
and, when that reference is not null, append the child entity. -/
def list_row (env : Env) (context : GlobalRef) (parentUri mimeTypeDir : ObjVal)
    (files : List AndroidFile) (row : CursorRow) :
    Except SafError (List AndroidFile) := do
  let docIdV ← row.docIdRes
  let docIdJstr ← docIdV.l
  let _docId ← env.getString docIdJstr
  let filenameV ← row.nameRes
  let filenameJstr ← filenameV.l
  let filename ← env.getString filenameJstr
  let sizeV ← row.sizeRes
  let sizeJ ← sizeV.j
  let size := usizeOfI64 sizeJ
  let mimeV ← row.mimeRes
  let mimeTypeJstr ← mimeV.l
  let childUri ← (← env.callStaticMethod (.byName "android/provider/DocumentsContract")
    "buildDocumentUriUsingTree" "(Landroid/net/Uri;Ljava/lang/String;)Landroid/net/Uri;"
    [JValue.obj parentUri, JValue.obj docIdJstr]).l
  let pathO ← (← env.callMethod childUri "getPath" "()Ljava/lang/String;" []).l
  let path ← env.getString pathO
  let urlO ← (← env.callMethod childUri "toString" "()Ljava/lang/String;" []).l
  let url ← env.getString urlO
  let is_dir ← (← env.callMethod mimeTypeJstr "equals" "(Ljava/lang/Object;)Z"
    [JValue.obj mimeTypeDir]).z
  let document_file ← (← env.callStaticMethod
    (.byName "androidx/documentfile/provider/DocumentFile") "fromSingleUri"
    "(Landroid/content/Context;Landroid/net/Uri;)Landroidx/documentfile/provider/DocumentFile;"
    [JValue.obj context.obj, JValue.obj childUri]).l
  if ¬ document_file.isNull then
    let document_file_ref ← env.newGlobalRef document_file
    pure (files ++ [{ filename, size, path, url, is_dir,
                      document_file := document_file_ref }])
  else
    pure files

/-- Steps of AndroidFileOps::list_files up to (not including) the query
call: the directory guard, context and ContentResolver resolution, parent
URI parsing, parent document id, children URI construction, and the
four-column projection array.  Returns the values the query consumes:
(context, contentResolver, parentUri, childrenUri, projection). -/
def list_files_prelude (env : Env) (s : SafState) (self : AndroidFile) :
    Except SafError (GlobalRef × ObjVal × ObjVal × ObjVal × ObjVal) := do
  if ¬ self.is_dir then
    Except.error (.anyhowMsg "The provided URL does not point to a directory")
  else
    get_env env s
    let context ← get_global_context env s
    let contentResolver ← (← env.callMethod context.obj "getContentResolver"
      "()Landroid/content/ContentResolver;" []).l
    let parentUriStr ← env.newString self.url
    let parentUri ← (← env.callStaticMethod (.byName "android/net/Uri") "parse"
      "(Ljava/lang/String;)Landroid/net/Uri;" [JValue.obj parentUriStr]).l
    let parentDocumentId ← (← env.callStaticMethod
      (.byName "android/provider/DocumentsContract") "getDocumentId"
      "(Landroid/net/Uri;)Ljava/lang/String;" [JValue.obj parentUri]).l
    let childrenUri ← (← env.callStaticMethod
      (.byName "android/provider/DocumentsContract") "buildChildDocumentsUriUsingTree"
      "(Landroid/net/Uri;Ljava/lang/String;)Landroid/net/Uri;"
      [JValue.obj parentUri, JValue.obj parentDocumentId]).l
    let columnDocumentId ← (← env.getStaticField
      "android/provider/DocumentsContract$Document" "COLUMN_DOCUMENT_ID"
      "Ljava/lang/String;").l
    let columnDisplayName ← (← env.getStaticField
      "android/provider/DocumentsContract$Document" "COLUMN_DISPLAY_NAME"
      "Ljava/lang/String;").l
    let columnSize ← (← env.getStaticField
      "android/provider/DocumentsContract$Document" "COLUMN_SIZE"
      "Ljava/lang/String;").l
    let columnMimeType ← (← env.getStaticField
      "android/provider/DocumentsContract$Document" "COLUMN_MIME_TYPE"
      "Ljava/lang/String;").l
    let projection ← env.newObjectArray 4 "java/lang/String" ObjVal.nullv
    env.setObjectArrayElement projection 0 columnDocumentId
    env.setObjectArrayElement projection 1 columnDisplayName
    env.setObjectArrayElement projection 2 columnSize
    env.setObjectArrayElement projection 3 columnMimeType
    pure (context, contentResolver, parentUri, childrenUri, projection)

/-- AndroidFileOps::list_files before the final sort: after the prelude,
issue the single structured query, read the directory MIME constant, and,
when the cursor is not null, fold the row processing over the cursor rows
and close the cursor; a null cursor yields the empty list. -/
def list_files_core (env : Env) (s : SafState) (self : AndroidFile) :
    Except SafError (List AndroidFile) := do
  let (context, contentResolver, parentUri, childrenUri, projection) ←
    list_files_prelude env s self
  let cursor ← (← env.callMethod contentResolver "query" query_sig
    [JValue.obj childrenUri, JValue.obj projection, JValue.obj ObjVal.nullv,
     JValue.obj ObjVal.nullv, JValue.obj ObjVal.nullv]).l
  let mimeTypeDir ← (← env.getStaticField
    "android/provider/DocumentsContract$Document" "MIME_TYPE_DIR"
    "Ljava/lang/String;").l
  if ¬ cursor.isNull then
    let files ← (env.cursorRows cursor).foldlM
      (fun acc row => list_row env context parentUri mimeTypeDir acc row) []
    let closeV ← env.callMethod cursor "close" "()V" []
    let _ ← closeV.v
    pure files
  else
    pure []

/-- AndroidFileOps::list_files: the core computation followed by the
ascending sort of the entities by name. -/
def AndroidFile.list_files (env : Env) (s : SafState) (self : AndroidFile) :
    Except SafError (List AndroidFile) := do
  let files ← list_files_core env s self
  pure (files.insertionSort fileNameLe)

/-- AndroidFileOps::create_file: fails up front on a non-directory entity,
then delegates to the createFile call of the DocumentFile and resolves the
entity the platform actually created. -/
def AndroidFile.create_file (env : Env) (s : SafState) (self : AndroidFile)
    (mime_type file_name : String) : Except SafError AndroidFile :=
  if ¬ self.is_dir then
    .error (.anyhowMsg "The provided URL does not point to a directory")
  else do
    get_env env s
    let mimeTypeStr ← env.newString mime_type
    let fileNameStr ← env.newString file_name
    let newFile ← (← env.callMethod self.document_file.obj "createFile"
      "(Ljava/lang/String;Ljava/lang/String;)Landroidx/documentfile/provider/DocumentFile;"
      [JValue.obj mimeTypeStr, JValue.obj fileNameStr]).l
    from_document_file env s newFile

/-- AndroidFileOps::create_directory: fails up front on a non-directory
entity, then delegates to the createDirectory call of the DocumentFile. -/
def AndroidFile.create_directory (env : Env) (s : SafState) (self : AndroidFile)
    (dir_name : String) : Except SafError AndroidFile :=
  if ¬ self.is_dir then
    .error (.anyhowMsg "The provided URL does not point to a directory")
  else do
    get_env env s
    let fileNameStr ← env.newString dir_name
    let newDir ← (← env.callMethod self.document_file.obj "createDirectory"
      "(Ljava/lang/String;)Landroidx/documentfile/provider/DocumentFile;"
      [JValue.obj fileNameStr]).l
    from_document_file env s newDir

/-- AndroidFileOps::remove_file: delegates to the delete call and returns
the boolean the platform reports. -/
def AndroidFile.remove_file (env : Env) (s : SafState) (self : AndroidFile) :
    Except SafError Bool := do
  get_env env s
  (← env.callMethod self.document_file.obj "delete" "()Z" []).z

/-! ### Helper lemmas on the Except monad and the embedding primitives -/

theorem ebind_ok {ε α β : Type} (a : α) (f : α → Except ε β) :
    (Except.ok a >>= f) = f a := rfl

theorem ebind_err {ε α β : Type} (e : ε) (f : α → Except ε β) :
    ((Except.error e : Except ε α) >>= f) = Except.error e := rfl

theorem epure_eq_ok {ε α : Type} (a : α) : (pure a : Except ε α) = Except.ok a := rfl

theorem ebind_eq_ok {ε α β : Type} {x : Except ε α} {f : α → Except ε β} {b : β}
    (h : (x >>= f) = Except.ok b) : ∃ a, x = Except.ok a ∧ f a = Except.ok b := by
  cases x with
  | error e => exact absurd h (by simp [ebind_err])
  | ok a => exact ⟨a, rfl, h⟩

theorem charListLe_cons_iff (a b : Char) (as bs : List Char) :
    charListLe (a :: as) (b :: bs) = true ↔
      a.toNat < b.toNat ∨ (a.toNat = b.toNat ∧ charListLe as bs = true) := by
  simp only [charListLe]
  rcases Nat.lt_trichotomy a.toNat b.toNat with h | h | h
  · simp [h, Nat.ne_of_lt h]
  · simp [h, Nat.lt_irrefl]
  · simp [h, Nat.lt_asymm h, Nat.ne_of_gt h]

theorem charListLe_total : ∀ a b : List Char,
    charListLe a b = true ∨ charListLe b a = true
  | [], _ => Or.inl rfl
  | _ :: _, [] => Or.inr rfl
  | a :: as, b :: bs => by
    rw [charListLe_cons_iff, charListLe_cons_iff]
    rcases Nat.lt_trichotomy a.toNat b.toNat with h | h | h
    · exact Or.inl (Or.inl h)
    · rcases charListLe_total as bs with hr | hr
      · exact Or.inl (Or.inr ⟨h, hr⟩)
      · exact Or.inr (Or.inr ⟨h.symm, hr⟩)
    · exact Or.inr (Or.inl h)

theorem charListLe_trans : ∀ a b c : List Char,
    charListLe a b = true → charListLe b c = true → charListLe a c = true
  | [], _, _, _, _ => rfl
  | _ :: _, [], _, h, _ => by simp [charListLe] at h
  | _ :: _, _ :: _, [], _, h => by simp [charListLe] at h
  | a :: as, b :: bs, c :: cs, h1, h2 => by
    rw [charListLe_cons_iff] at h1 h2 ⊢
    rcases h1 with h1 | ⟨h1e, h1r⟩
    · rcases h2 with h2 | ⟨h2e, _⟩
      · exact Or.inl (Nat.lt_trans h1 h2)
      · exact Or.inl (h2e ▸ h1)
    · rcases h2 with h2 | ⟨h2e, h2r⟩
      · exact Or.inl (h1e ▸ h2)
      · exact Or.inr ⟨h1e.trans h2e, charListLe_trans as bs cs h1r h2r⟩

instance : IsTotal AndroidFile fileNameLe :=
  ⟨fun a b => charListLe_total a.filename.data b.filename.data⟩

instance : IsTrans AndroidFile fileNameLe :=
  ⟨fun a b c => charListLe_trans a.filename.data b.filename.data c.filename.data⟩

theorem initialize_noop_of_done {s : SafState} (env : Env) (vm : Nat)
    (h : s.initDone = true) : initialize_class_loader env vm s = (s, Except.ok ()) := by
  simp [initialize_class_loader, h]

theorem runInits_noop_of_done : ∀ (l : List (Env × Nat)) (s : SafState),
    s.initDone = true → runInits l s = s
  | [], _, _ => rfl
  | (env, vm) :: rest, s, h => by
    rw [runInits, initialize_noop_of_done env vm h]
    exact runInits_noop_of_done rest s h

theorem initialize_fresh_initDone (env : Env) (vm : Nat) :
    (initialize_class_loader env vm freshState).1.initDone = true := by
  rw [initialize_class_loader]
  simp only [freshState]
  split
  · simp_all
  · split <;> split <;> simp

theorem initialize_fresh_setupRuns (env : Env) (vm : Nat) :
    (initialize_class_loader env vm freshState).1.setupRuns = 1 := by
  rw [initialize_class_loader]
  simp only [freshState]
  split
  · simp_all
  · split <;> split <;> simp

/-! ### Concrete platform instances used to evaluate the embedding -/

/-- State after a successful initialization that did not cache a loader
(degraded fallback mode): JavaVM present, caches absent. -/
def sInit : SafState :=
  { initDone := true, jvm := some 1, classLoader := none,
    findClassMethod := none, setupRuns := 1 }

/-- Fully initialized state: JavaVM present and both caches populated. -/
def sCached : SafState :=
  { initDone := true, jvm := some 1, classLoader := some ⟨.loaderObj⟩,
    findClassMethod := some 2, setupRuns := 1 }

/-- Instance methods of the platform used by setup_class_loader. -/
def demoCallMethod (recv : ObjVal) (name : String) (_sig : String)
    (args : List JValue) : Except SafError JValue :=
  match recv, name, args with
  | .threadObj, "getApplication", [] => .ok (.obj .appObj)
  | .appObj, "getPackageName", [] => .ok (.obj (.str "one.rachelt.rust_saf"))
  | .cls _, "getClassLoader", [] => .ok (.obj .loaderObj)
  | _, _, _ => .error (.platform 905)

/-- Static methods of the platform used by setup_class_loader. -/
def demoCallStatic (c : ClassDesc) (name : String) (_sig : String)
    (_args : List JValue) : Except SafError JValue :=
  match c, name with
  | .byClass _, "currentActivityThread" => .ok (.obj .threadObj)
  | _, _ => .error (.platform 906)

/-- A platform on which setup_class_loader succeeds, producing the loader
global reference and method id 2. -/
def demoEnv : Env where
  attachCurrentThread := .ok ()
  findClassDefault := fun n => .ok (.cls n)
  newString := fun s => .ok (.str s)
  getString := fun o => match o with
    | .str s => .ok s
    | _ => .error (.nullPtr "get_string")
  callMethod := demoCallMethod
  callStaticMethod := demoCallStatic
  callMethodId := fun _ _ _ => .error (.platform 900)
  newObject := fun _ _ _ => .error (.platform 901)
  newGlobalRef := fun o => .ok ⟨o⟩
  getStaticField := fun _ _ _ => .error (.platform 902)
  getMethodId := fun _ nm _ => if nm = "findClass" then .ok 2 else .ok 1
  getObjectClass := fun _ => .ok (.cls "java/lang/Class")
  newObjectArray := fun _ _ _ => .error (.platform 903)
  setObjectArrayElement := fun _ _ _ => .error (.platform 904)
  cursorRows := fun _ => []

/-- A platform whose by-name findClass invocation and whose by-identifier
invocation give visibly different classes, separating the two resolution
paths. -/
def cacheProbeEnv : Env where
  attachCurrentThread := .ok ()
  findClassDefault := fun n => .ok (.cls ("fallback/" ++ n))
  newString := fun s => .ok (.str s)
  getString := fun o => match o with
    | .str s => .ok s
    | _ => .error (.nullPtr "get_string")
  callMethod := fun recv name _ args =>
    match recv, name, args with
    | .loaderObj, "findClass", [JValue.obj (.str n)] =>
        .ok (.obj (.cls ("byname/" ++ n)))
    | _, _, _ => .error (.platform 910)
  callStaticMethod := fun _ _ _ _ => .error (.platform 911)
  callMethodId := fun recv mid args =>
    match recv, mid, args with
    | .loaderObj, 2, [JValue.obj (.str _)] => .ok (.obj (.cls "byid"))
    | _, _, _ => .error (.platform 912)
  newObject := fun _ _ _ => .error (.platform 913)
  newGlobalRef := fun o => .ok ⟨o⟩
  getStaticField := fun _ _ _ => .error (.platform 914)
  getMethodId := fun _ _ _ => .ok 2
  getObjectClass := fun _ => .ok (.cls "java/lang/Class")
  newObjectArray := fun _ _ _ => .error (.platform 915)
  setObjectArrayElement := fun _ _ _ => .error (.platform 916)
  cursorRows := fun _ => []

/-- Document metadata held by the semantic SAF model. -/
structure DocInfo where
  name : String
  isDir : Bool
  size : Int
deriving DecidableEq, Repr

/-- Semantic model of the SAF document provider: a partial map from
locators to document metadata and the root-document resolution performed
by DocumentFile.fromTreeUri on a URI string. -/
structure SafModel where
  docs : String → Option DocInfo
  treeRoot : String → String

/-- Instance methods of the platform induced by a SafModel. -/
def modelCallMethod (M : SafModel) (recv : ObjVal) (name : String)
    (_sig : String) (args : List JValue) : Except SafError JValue :=
  match recv, name, args with
  | .threadObj, "getApplication", [] => .ok (.obj .appObj)
  | .doc u, "getUri", [] => .ok (.obj (.uri u))
  | .doc u, "getName", [] =>
      match M.docs u with
      | some i => .ok (.obj (.str i.name))
      | none => .ok (.obj .nullv)
  | .doc u, "length", [] =>
      .ok (.long (match M.docs u with | some i => i.size | none => 0))
  | .doc u, "isDirectory", [] =>
      .ok (.bool (match M.docs u with | some i => i.isDir | none => false))
  | .uri u, "toString", [] => .ok (.obj (.str u))
  | .uri u, "getPath", [] => .ok (.obj (.str u))
  | _, _, _ => .error (.platform 100)

/-- Static methods of the platform induced by a SafModel. -/
def modelCallStatic (M : SafModel) (c : ClassDesc) (name : String)
    (_sig : String) (args : List JValue) : Except SafError JValue :=
  match c, name, args with
  | .byClass _, "currentActivityThread", [] => .ok (.obj .threadObj)
  | .byName "android/net/Uri", "parse", [JValue.obj (.str s)] =>
      .ok (.obj (.uri s))
  | .byName "androidx/documentfile/provider/DocumentFile", "fromTreeUri",
      [JValue.obj _, JValue.obj (.uri s)] => .ok (.obj (.doc (M.treeRoot s)))
  | _, _, _ => .error (.platform 101)

/-- The platform induced by a SafModel: resolution yields the document
objects of the model, and a TreeDocumentFile constructed at a URI is the
document positioned at that locator. -/
def mkEnv (M : SafModel) : Env where
  attachCurrentThread := .ok ()
  findClassDefault := fun n => .ok (.cls n)
  newString := fun s => .ok (.str s)
  getString := fun o => match o with
    | .str s => .ok s
    | _ => .error (.nullPtr "get_string")
  callMethod := modelCallMethod M
  callStaticMethod := modelCallStatic M
  callMethodId := fun _ _ _ => .error (.platform 102)
  newObject := fun _ _ args =>
    match args with
    | [JValue.obj _, JValue.obj _, JValue.obj (.uri u)] => .ok (.doc u)
    | _ => .error (.platform 103)
  newGlobalRef := fun o => .ok ⟨o⟩
  getStaticField := fun _ _ _ => .error (.platform 104)
  getMethodId := fun _ _ _ => .ok 1
  getObjectClass := fun _ => .ok (.cls "java/lang/Class")
  newObjectArray := fun _ _ _ => .error (.platform 105)
  setObjectArrayElement := fun _ _ _ => .error (.platform 106)
  cursorRows := fun _ => []

/-- Directory MIME constant of the platform. -/
def dirMime : String := "vnd.android.document/directory"

/-- Instance methods of the listing platform; the query call returns the
given cursor value. -/
def listCallMethod (cursorV : JValue) (recv : ObjVal) (name : String)
    (_sig : String) (args : List JValue) : Except SafError JValue :=
  match recv, name, args with
  | .threadObj, "getApplication", [] => .ok (.obj .appObj)
  | .appObj, "getContentResolver", [] => .ok (.obj .resolverObj)
  | .resolverObj, "query", _ => .ok cursorV
  | .uri u, "getPath", [] => .ok (.obj (.str u))
  | .uri u, "toString", [] => .ok (.obj (.str u))
  | .str a, "equals", [JValue.obj (.str b)] => .ok (.bool (a == b))
  | .cursorObj _, "close", [] => .ok .void
  | _, _, _ => .error (.platform 921)

/-- Static methods of the listing platform; singleNull names the child
locators for which fromSingleUri produces a null reference. -/
def listCallStatic (singleNull : String → Bool) (c : ClassDesc) (name : String)
    (_sig : String) (args : List JValue) : Except SafError JValue :=
  match c, name, args with
  | .byClass _, "currentActivityThread", [] => .ok (.obj .threadObj)
  | .byName "android/net/Uri", "parse", [JValue.obj (.str s)] =>
      .ok (.obj (.uri s))
  | .byName "android/provider/DocumentsContract", "getDocumentId",
      [JValue.obj (.uri u)] => .ok (.obj (.str ("id:" ++ u)))
  | .byName "android/provider/DocumentsContract", "buildChildDocumentsUriUsingTree",
      [JValue.obj (.uri u), JValue.obj (.str d)] =>
      .ok (.obj (.uri (u ++ "/children/" ++ d)))
  | .byName "android/provider/DocumentsContract", "buildDocumentUriUsingTree",
      [JValue.obj (.uri u), JValue.obj (.str d)] =>
      .ok (.obj (.uri (u ++ "/" ++ d)))
  | .byName "androidx/documentfile/provider/DocumentFile", "fromSingleUri",
      [JValue.obj _, JValue.obj (.uri u)] =>
      .ok (.obj (if singleNull u then .nullv else .doc u))
  | _, _, _ => .error (.platform 920)

/-- A platform for directory listing: the query yields the given cursor
value, the cursor yields the given rows, and fromSingleUri is null exactly
on the locators singleNull accepts. -/
def listEnv (cursorV : JValue) (rows : List CursorRow) (singleNull : String → Bool) : Env where
  attachCurrentThread := .ok ()
  findClassDefault := fun n => .ok (.cls n)
  newString := fun s => .ok (.str s)
  getString := fun o => match o with
    | .str s => .ok s
    | _ => .error (.nullPtr "get_string")
  callMethod := listCallMethod cursorV
  callStaticMethod := listCallStatic singleNull
  callMethodId := fun _ _ _ => .error (.platform 922)
  newObject := fun _ _ _ => .error (.platform 923)
  newGlobalRef := fun o => .ok ⟨o⟩
  getStaticField := fun _ f _ =>
    match f with
    | "COLUMN_DOCUMENT_ID" => .ok (.obj (.str "document_id"))
    | "COLUMN_DISPLAY_NAME" => .ok (.obj (.str "_display_name"))
    | "COLUMN_SIZE" => .ok (.obj (.str "_size"))
    | "COLUMN_MIME_TYPE" => .ok (.obj (.str "mime_type"))
    | "MIME_TYPE_DIR" => .ok (.obj (.str dirMime))
    | _ => .error (.platform 924)
  getMethodId := fun _ _ _ => .ok 1
  getObjectClass := fun _ => .ok (.cls "java/lang/Class")
  newObjectArray := fun _ _ _ => .ok (.arr 0)
  setObjectArrayElement := fun _ _ _ => .ok ()
  cursorRows := fun _ => rows

/-- The directory entity the listing witnesses list. -/
def dirT : AndroidFile :=
  { filename := "t", size := 0, path := "T", url := "T", is_dir := true,
    document_file := ⟨.doc "T"⟩ }

/-- A non-directory entity. -/
def fileF : AndroidFile :=
  { filename := "f", size := 1, path := "F", url := "F", is_dir := false,
    document_file := ⟨.doc "F"⟩ }

/-- Cursor row with the given document id, display name, size and MIME
type, every column read succeeding. -/
def mkRow (docId nm : String) (sz : Int) (mime : String) : CursorRow :=
  { docIdRes := .ok (.obj (.str docId)), nameRes := .ok (.obj (.str nm)),
    sizeRes := .ok (.long sz), mimeRes := .ok (.obj (.str mime)) }

/-- A platform on which the getName read of from_document_file fails with
the platform diagnostic 9. -/
def nameFailEnv : Env :=
  { demoEnv with
    callMethod := fun _ name _ _ =>
      match name with
      | "getName" => .error (.platform 9)
      | _ => .error (.platform 930) }

/-- A platform on which every read of from_document_file succeeds except
that the isDirectory call answers with an object value, so that the typed
boolean accessor on the answer fails. -/
def dirFlagEnv : Env :=
  { demoEnv with
    callMethod := fun recv name _ _ =>
      match recv, name with
      | .doc _, "getName" => .ok (.obj (.str "f"))
      | .doc _, "length" => .ok (.long 5)
      | .doc u, "getUri" => .ok (.obj (.uri u))
      | .uri u, "getPath" => .ok (.obj (.str u))
      | .uri u, "toString" => .ok (.obj (.str u))
      | .doc _, "isDirectory" => .ok (.obj .nullv)
      | _, _ => .error (.platform 931) }

/-! ### C1: deterministic ascending-name order of list() -/

/-- C1: every successful list_files result is sorted in ascending order of
the name field, for every platform and every cursor content, because the
entities are sorted by name after the iteration; the platform enumeration
order never shows through.  The b/a/c instance is the witness theorem. -/
theorem list_files_sorted (env : Env) (s : SafState) (self : AndroidFile)
    (fs : List AndroidFile) (h : AndroidFile.list_files env s self = .ok fs) :
    List.Sorted fileNameLe fs := by
  unfold AndroidFile.list_files at h
  rcases ebind_eq_ok h with ⟨files, _, hf⟩
  rw [epure_eq_ok] at hf
  cases hf
  exact List.sorted_insertionSort fileNameLe files

/-- Rows produced by the children query in the order b.txt, a.txt, c.txt. -/
def rowsBAC : List CursorRow :=
  [mkRow "docb" "b.txt" 2 "text/plain",
   mkRow "doca" "a.txt" 1 "text/plain",
   mkRow "docc" "c.txt" 3 dirMime]

/-- Listing platform whose query enumerates b.txt, a.txt, c.txt. -/
def envBAC : Env := listEnv (JValue.obj (.cursorObj 0)) rowsBAC (fun _ => false)

/-- Entities of the b/a/c listing in ascending name order. -/
def fsABC : List AndroidFile :=
  [{ filename := "a.txt", size := 1, path := "T/doca", url := "T/doca",
     is_dir := false, document_file := ⟨.doc "T/doca"⟩ },
   { filename := "b.txt", size := 2, path := "T/docb", url := "T/docb",
     is_dir := false, document_file := ⟨.doc "T/docb"⟩ },
   { filename := "c.txt", size := 3, path := "T/docc", url := "T/docc",
     is_dir := true, document_file := ⟨.doc "T/docc"⟩ }]

/-- C1 witness: a directory whose children enumerate as b.txt, a.txt, c.txt
lists as a.txt, b.txt, c.txt, and the result is sorted. -/
theorem list_files_sorted_witness :
    AndroidFile.list_files envBAC sInit dirT = .ok fsABC ∧
    fsABC.map (fun f => f.filename) = ["a.txt", "b.txt", "c.txt"] ∧
    List.Sorted fileNameLe fsABC :=
  ⟨by decide, by decide, list_files_sorted envBAC sInit dirT fsABC (by decide)⟩

/-! ### C3: operation-kind guards precede all foreign calls -/

/-- C3: open on a directory entity and list_files, create_file,
create_directory on a non-directory entity fail with the not-applicable
anyhow message.  The platform env and the bridge state s are universally
quantified and never consulted: the result is the same for every platform,
which is the observable content of the guard rejecting before any foreign
call is made. -/
theorem operation_kind_guard (env : Env) (s : SafState) (e : AndroidFile) :
    (e.is_dir = true → ∀ mode, AndroidFile.«open» env s e mode =
      .error (.anyhowMsg "The provided URL points to a directory")) ∧
    (e.is_dir = false →
      AndroidFile.list_files env s e =
        .error (.anyhowMsg "The provided URL does not point to a directory") ∧
      (∀ mime_type file_name, AndroidFile.create_file env s e mime_type file_name =
        .error (.anyhowMsg "The provided URL does not point to a directory")) ∧
      (∀ dir_name, AndroidFile.create_directory env s e dir_name =
        .error (.anyhowMsg "The provided URL does not point to a directory"))) := by
  constructor
  · intro h mode
    simp [AndroidFile.«open», h]
  · intro h
    refine ⟨?_, fun mime_type file_name => ?_, fun dir_name => ?_⟩
    · simp [AndroidFile.list_files, list_files_core, list_files_prelude, h, ebind_err]
    · simp [AndroidFile.create_file, h]
    · simp [AndroidFile.create_directory, h]

/-- C3 witness: the guards at concrete entities, one per operation. -/
theorem operation_kind_guard_witness :
    AndroidFile.«open» demoEnv sInit dirT "r" =
      .error (.anyhowMsg "The provided URL points to a directory") ∧
    AndroidFile.list_files demoEnv sInit fileF =
      .error (.anyhowMsg "The provided URL does not point to a directory") ∧
    AndroidFile.create_file demoEnv sInit fileF "text/plain" "x" =
      .error (.anyhowMsg "The provided URL does not point to a directory") ∧
    AndroidFile.create_directory demoEnv sInit fileF "d" =
      .error (.anyhowMsg "The provided URL does not point to a directory") :=
  ⟨(operation_kind_guard demoEnv sInit dirT).1 rfl "r",
   ((operation_kind_guard demoEnv sInit fileF).2 rfl).1,
   ((operation_kind_guard demoEnv sInit fileF).2 rfl).2.1 "text/plain" "x",
   ((operation_kind_guard demoEnv sInit fileF).2 rfl).2.2 "d"⟩

/-! ### C8: a null result set yields an empty sequence -/

/-- C8: when the steps before the query succeed, the children query returns
a null cursor, and the directory MIME constant is readable, list_files
returns Ok with zero entities rather than an error. -/
theorem list_files_null_query (env : Env) (s : SafState) (self : AndroidFile)
    (context : GlobalRef) (contentResolver parentUri childrenUri projection m : ObjVal)
    (hp : list_files_prelude env s self =
      .ok (context, contentResolver, parentUri, childrenUri, projection))
    (hq : env.callMethod contentResolver "query" query_sig
      [JValue.obj childrenUri, JValue.obj projection, JValue.obj ObjVal.nullv,
       JValue.obj ObjVal.nullv, JValue.obj ObjVal.nullv] = .ok (JValue.obj .nullv))
    (hm : env.getStaticField "android/provider/DocumentsContract$Document"
      "MIME_TYPE_DIR" "Ljava/lang/String;" = .ok (JValue.obj m)) :
    AndroidFile.list_files env s self = .ok [] := by
  simp [AndroidFile.list_files, list_files_core, hp, hq, hm, JValue.l,
        ObjVal.isNull, ebind_ok, epure_eq_ok]

/-- Listing platform whose children query returns a null cursor. -/
def envNullCursor : Env := listEnv (JValue.obj .nullv) [] (fun _ => false)

/-- C8 witness: the null-cursor listing at a concrete directory. -/
theorem list_files_null_query_witness :
    AndroidFile.list_files envNullCursor sInit dirT = .ok [] :=
  list_files_null_query envNullCursor sInit dirT ⟨.appObj⟩ .resolverObj (.uri "T")
    (.uri "T/children/id:T") (.arr 0) (.str dirMime)
    (by decide) (by decide) (by decide)

/-! ### C10: rows whose single-document reference is null are dropped -/

/-- C10: a cursor row whose column reads and per-row foreign calls all
succeed but whose fromSingleUri reference is the null object contributes no
entity and raises no error: the row processing returns the accumulator
unchanged, so the returned sequence can be strictly shorter than the row
sequence the query produced. -/
theorem list_row_null_child_skipped (env : Env) (context : GlobalRef)
    (parentUri mimeTypeDir : ObjVal) (row : CursorRow) (files : List AndroidFile)
    (v1 v2 v3 v4 v5 v6 v7 v8 v9 : JValue) (d1 o2 m4 cu o6 o7 : ObjVal)
    (docId nm pth url : String) (sz : Int) (b : Bool)
    (h : row.docIdRes = .ok v1 ∧ v1.l = .ok d1 ∧ env.getString d1 = .ok docId ∧
      row.nameRes = .ok v2 ∧ v2.l = .ok o2 ∧ env.getString o2 = .ok nm ∧
      row.sizeRes = .ok v3 ∧ v3.j = .ok sz ∧
      row.mimeRes = .ok v4 ∧ v4.l = .ok m4 ∧
      env.callStaticMethod (.byName "android/provider/DocumentsContract")
        "buildDocumentUriUsingTree" "(Landroid/net/Uri;Ljava/lang/String;)Landroid/net/Uri;"
        [JValue.obj parentUri, JValue.obj d1] = .ok v5 ∧ v5.l = .ok cu ∧
      env.callMethod cu "getPath" "()Ljava/lang/String;" [] = .ok v6 ∧ v6.l = .ok o6 ∧
      env.getString o6 = .ok pth ∧
      env.callMethod cu "toString" "()Ljava/lang/String;" [] = .ok v7 ∧ v7.l = .ok o7 ∧
      env.getString o7 = .ok url ∧
      env.callMethod m4 "equals" "(Ljava/lang/Object;)Z" [JValue.obj mimeTypeDir] = .ok v8 ∧
      v8.z = .ok b ∧
      env.callStaticMethod (.byName "androidx/documentfile/provider/DocumentFile")
        "fromSingleUri"
        "(Landroid/content/Context;Landroid/net/Uri;)Landroidx/documentfile/provider/DocumentFile;"
        [JValue.obj context.obj, JValue.obj cu] = .ok v9 ∧ v9.l = .ok ObjVal.nullv) :
    list_row env context parentUri mimeTypeDir files row = .ok files := by
  obtain ⟨h1, h2, h3, h4, h5, h6, h7, h8, h9, h10, h11, h12, h13, h14, h15,
    h16, h17, h18, h19, h20, h21, h22⟩ := h
  simp [list_row, h1, h2, h3, h4, h5, h6, h7, h8, h9, h10, h11, h12, h13,
    h14, h15, h16, h17, h18, h19, h20, h21, h22, ObjVal.isNull, ebind_ok]

/-- Row whose child locator resolves to a null single-document reference. -/
def rowGhost : CursorRow := mkRow "ghost" "g.txt" 0 "text/plain"

/-- Listing platform with two rows, one of which yields a null
single-document reference. -/
def envGhost : Env :=
  listEnv (JValue.obj (.cursorObj 0)) [mkRow "doca" "a.txt" 1 "text/plain", rowGhost]
    (fun u => u == "T/ghost")

/-- C10 witness: the ghost row is skipped without error, and the full
listing returns one entity from a two-row query. -/
theorem list_row_null_child_skipped_witness :
    list_row envGhost ⟨.appObj⟩ (.uri "T") (.str dirMime) [] rowGhost = .ok [] ∧
    AndroidFile.list_files envGhost sInit dirT =
      .ok [{ filename := "a.txt", size := 1, path := "T/doca", url := "T/doca",
             is_dir := false, document_file := ⟨.doc "T/doca"⟩ }] ∧
    (envGhost.cursorRows (.cursorObj 0)).length = 2 :=
  ⟨list_row_null_child_skipped envGhost ⟨.appObj⟩ (.uri "T") (.str dirMime) rowGhost []
      (.obj (.str "ghost")) (.obj (.str "g.txt")) (.long 0) (.obj (.str "text/plain"))
      (.obj (.uri "T/ghost")) (.obj (.str "T/ghost")) (.obj (.str "T/ghost"))
      (.bool false) (.obj .nullv)
      (.str "ghost") (.str "g.txt") (.str "text/plain") (.uri "T/ghost")
      (.str "T/ghost") (.str "T/ghost")
      "ghost" "g.txt" "T/ghost" "T/ghost" 0 false
      (by decide),
   by decide, by decide⟩

/-! ### C2: locator round-trip through resolution -/

theorem fdf_model_some (M : SafModel) (s : SafState) (j : Nat) (w : String)
    (i : DocInfo) (hj : s.jvm = some j) (hd : M.docs w = some i) :
    from_document_file (mkEnv M) s (.doc w) =
      .ok { filename := i.name, size := usizeOfI64 i.size, path := w, url := w,
            is_dir := i.isDir, document_file := ⟨.doc w⟩ } := by
  simp [from_document_file, get_env, hj, mkEnv, modelCallMethod, ObjVal.isNull,
        JValue.l, JValue.z, JValue.j, hd, ebind_ok, epure_eq_ok]

theorem fdf_model_none (M : SafModel) (s : SafState) (j : Nat) (w : String)
    (hj : s.jvm = some j) (hd : M.docs w = none) :
    from_document_file (mkEnv M) s (.doc w) = .error (.nullPtr "get_string") := by
  simp [from_document_file, get_env, hj, mkEnv, modelCallMethod, ObjVal.isNull,
        JValue.l, hd, ebind_ok, ebind_err]

theorem ftu_model (M : SafModel) (s : SafState) (j : Nat) (L : String)
    (hj : s.jvm = some j) (hcl : s.classLoader = none) :
    from_tree_url (mkEnv M) s L =
      if strStartsWith (M.treeRoot L) L then
        from_document_file (mkEnv M) s (.doc (M.treeRoot L))
      else
        from_document_file (mkEnv M) s (.doc L) := by
  simp only [from_tree_url, get_global_context, find_class, get_env, hj, hcl, mkEnv,
    modelCallMethod, modelCallStatic, JValue.l, ebind_ok, ebind_err, epure_eq_ok]

/-- C2: over the semantic SAF platform model, resolving the locator of an
entity obtained from from_tree_url yields an entity with the same name and
directory flag.  The platform hypothesis hroot states the documented SAF
root-resolution behavior: resolving an already-resolved root URI yields
that same root, whose URI string extends it; the state hypotheses put the
bridge in its initialized (fallback-resolution) mode. -/
theorem from_tree_url_roundtrip (M : SafModel) (s : SafState) (j : Nat) (L : String)
    (e : AndroidFile)
    (hroot : ∀ x, strStartsWith (M.treeRoot (M.treeRoot x)) (M.treeRoot x) = true ∧
      M.treeRoot (M.treeRoot x) = M.treeRoot x)
    (hj : s.jvm = some j) (hcl : s.classLoader = none)
    (h : from_tree_url (mkEnv M) s L = .ok e) :
    ∃ e2, from_tree_url (mkEnv M) s e.url = .ok e2 ∧
      e2.filename = e.filename ∧ e2.is_dir = e.is_dir := by
  rw [ftu_model M s j L hj hcl] at h
  by_cases hb : strStartsWith (M.treeRoot L) L = true
  · rw [if_pos hb] at h
    cases hd : M.docs (M.treeRoot L) with
    | none => rw [fdf_model_none M s j _ hj hd] at h; exact absurd h (by simp)
    | some i =>
      rw [fdf_model_some M s j _ i hj hd] at h
      injection h with h2
      subst h2
      have key : from_tree_url (mkEnv M) s (M.treeRoot L) =
          .ok { filename := i.name, size := usizeOfI64 i.size, path := M.treeRoot L,
                url := M.treeRoot L, is_dir := i.isDir,
                document_file := ⟨.doc (M.treeRoot L)⟩ } := by
        rw [ftu_model M s j (M.treeRoot L) hj hcl, if_pos (hroot L).1, (hroot L).2,
          fdf_model_some M s j _ i hj hd]
      exact ⟨_, key, rfl, rfl⟩
  · rw [if_neg hb] at h
    cases hd : M.docs L with
    | none => rw [fdf_model_none M s j _ hj hd] at h; exact absurd h (by simp)
    | some i =>
      rw [fdf_model_some M s j _ i hj hd] at h
      injection h with h2
      subst h2
      have key : from_tree_url (mkEnv M) s L =
          .ok { filename := i.name, size := usizeOfI64 i.size, path := L, url := L,
                is_dir := i.isDir, document_file := ⟨.doc L⟩ } := by
        rw [ftu_model M s j L hj hcl, if_neg hb, fdf_model_some M s j _ i hj hd]
      exact ⟨_, key, rfl, rfl⟩

/-- One-tree SAF model: every URI resolves to the root locator R, which is
the single document of the store. -/
def M0 : SafModel :=
  { docs := fun u => if u = "R" then some ⟨"root", true, 0⟩ else none,
    treeRoot := fun _ => "R" }

/-- C2 witness: the round-trip at the root entity of M0. -/
theorem from_tree_url_roundtrip_witness :
    ∃ e2, from_tree_url (mkEnv M0) sInit "R" = .ok e2 ∧
      e2.filename = "root" ∧ e2.is_dir = true :=
  from_tree_url_roundtrip M0 sInit 1 "R"
    { filename := "root", size := 0, path := "R", url := "R", is_dir := true,
      document_file := ⟨.doc "R"⟩ }
    (fun _ => ⟨rfl, rfl⟩) rfl rfl (by decide)

/-! ### C4: which cached pieces resolve_class actually uses -/

/-- C4 counterexample: on a fully initialized state, find_class answers
through the by-name findClass invocation and differs from the
specification-modelled resolver find_class_spec, which invokes through the
cached method identifier; so the cached identifier is not what find_class
uses. -/
theorem find_class_spec_mismatch :
    find_class cacheProbeEnv sCached "X" = .ok (.cls "byname/X") ∧
    find_class_spec cacheProbeEnv sCached "X" = .ok (.cls "byid") ∧
    find_class cacheProbeEnv sCached "X" ≠ find_class_spec cacheProbeEnv sCached "X" ∧
    sCached.classLoader.isSome = true ∧ sCached.findClassMethod.isSome = true := by
  decide

/-- C4 amended: when the bridge is initialized, find_class resolves through
the cached class-loader reference by invoking its findClass method by name
and signature on each call; the cached method identifier is never consulted
(the result is invariant under the identifier cache and under the
by-identifier invocation primitive), so per-call method re-resolution is
not avoided.  When the loader cache is absent it falls back to the default
resolution entry point. -/
theorem find_class_by_name_only (env : Env) (s : SafState) (name : String) :
    (∀ j cl, s.jvm = some j → s.classLoader = some cl →
      find_class env s name = (do
        env.attachCurrentThread
        let classNameJstring ← env.newString name
        let result ← env.callMethod cl.obj "findClass"
          "(Ljava/lang/String;)Ljava/lang/Class;" [JValue.obj classNameJstring]
        result.l)) ∧
    (∀ j, s.jvm = some j → s.classLoader = none →
      find_class env s name = (do
        env.attachCurrentThread
        env.findClassDefault name)) ∧
    (∀ m, find_class env s name = find_class env { s with findClassMethod := m } name) ∧
    (∀ f, find_class env s name = find_class { env with callMethodId := f } s name) := by
  refine ⟨fun j cl hj hcl => ?_, fun j hj hcl => ?_, fun m => rfl, fun f => rfl⟩
  · simp [find_class, get_env, hj, hcl]
  · simp [find_class, get_env, hj, hcl]

/-- C4 amended witness: both resolution modes at concrete inputs. -/
theorem find_class_by_name_only_witness :
    find_class cacheProbeEnv sCached "X" = (do
      cacheProbeEnv.attachCurrentThread
      let classNameJstring ← cacheProbeEnv.newString "X"
      let result ← cacheProbeEnv.callMethod ObjVal.loaderObj "findClass"
        "(Ljava/lang/String;)Ljava/lang/Class;" [JValue.obj classNameJstring]
      result.l) ∧
    find_class cacheProbeEnv sInit "Y" = (do
      cacheProbeEnv.attachCurrentThread
      cacheProbeEnv.findClassDefault "Y") :=
  ⟨(find_class_by_name_only cacheProbeEnv sCached "X").1 1 ⟨.loaderObj⟩ rfl rfl,
   (find_class_by_name_only cacheProbeEnv sInit "Y").2.1 1 rfl rfl⟩

/-! ### C5: the two caches are all-or-nothing in every reachable state -/

/-- C5: in every state reachable through initialize, resolve and teardown
steps from the library-load state, the cached class-loader reference and
the cached find-class method identifier are either both present or both
absent; every step preserves the invariant, and since each operation is one
atomic transition of the model no partially-initialized state is
observable. -/
theorem cache_step_preserved (s s2 : SafState) (hstep : BridgeStep s s2)
    (ih : s.classLoader.isSome = s.findClassMethod.isSome) :
    s2.classLoader.isSome = s2.findClassMethod.isSome := by
  cases hstep with
  | init env vm =>
    by_cases hd : s.initDone
    · rw [initialize_noop_of_done env vm hd]
      exact ih
    · rw [initialize_class_loader, if_neg hd]
      cases hs : setup_class_loader env with
      | ok p => simp
      | error e =>
        by_cases hv : vm ≠ 0 <;> simp [hv] <;> exact ih
  | resolve env name => exact ih
  | cleanup => simp [cleanup_class_loader]

theorem cache_all_or_nothing (s : SafState) (h : BridgeReachable s) :
    s.classLoader.isSome = s.findClassMethod.isSome := by
  induction h with
  | start => rfl
  | step hr hstep ih => exact cache_step_preserved _ _ hstep ih

/-- State after one full initialize/teardown cycle. -/
def sAfterCycle : SafState :=
  cleanup_class_loader (initialize_class_loader demoEnv 1 freshState).1

/-- C5 witness: the invariant at the reachable state after an initialize
step followed by a teardown step. -/
theorem cache_all_or_nothing_witness :
    sAfterCycle.classLoader.isSome = sAfterCycle.findClassMethod.isSome :=
  cache_all_or_nothing sAfterCycle
    (BridgeReachable.step
      (BridgeReachable.step BridgeReachable.start (BridgeStep.init demoEnv 1 freshState))
      (BridgeStep.cleanup (initialize_class_loader demoEnv 1 freshState).1))

/-! ### C7: initialize after teardown does not re-populate the caches -/

/-- C7 counterexample: after a successful initialize (caches populated,
one setup run) followed by an explicit teardown, a second initialize call
leaves both caches absent and the setup-execution count at one: the Once
guard is never re-armed, so the setup side effects do not run again. -/
theorem reinitialize_after_teardown_counterexample :
    (initialize_class_loader demoEnv 1 freshState).1.classLoader = some ⟨.loaderObj⟩ ∧
    (initialize_class_loader demoEnv 1 freshState).1.findClassMethod = some 2 ∧
    (initialize_class_loader demoEnv 1 freshState).1.setupRuns = 1 ∧
    (initialize_class_loader demoEnv 1
      (cleanup_class_loader (initialize_class_loader demoEnv 1 freshState).1)).1.classLoader
      = none ∧
    (initialize_class_loader demoEnv 1
      (cleanup_class_loader (initialize_class_loader demoEnv 1 freshState).1)).1.findClassMethod
      = none ∧
    (initialize_class_loader demoEnv 1
      (cleanup_class_loader (initialize_class_loader demoEnv 1 freshState).1)).1.setupRuns
      = 1 := by
  decide

/-- C7 amended: once a first initialize has run, the one-time guard is
consumed permanently: every later initialize call, including one issued
after an explicit teardown, is a no-op that re-executes no setup side
effects and re-populates nothing, so the caches are written at most once
per process lifetime. -/
theorem initialize_consumed_permanently (env2 : Env) (vm2 : Nat) (s : SafState)
    (h : s.initDone = true) :
    initialize_class_loader env2 vm2 s = (s, Except.ok ()) ∧
    initialize_class_loader env2 vm2 (cleanup_class_loader s) =
      (cleanup_class_loader s, Except.ok ()) ∧
    (cleanup_class_loader s).setupRuns = s.setupRuns := by
  refine ⟨initialize_noop_of_done env2 vm2 h, ?_, rfl⟩
  exact initialize_noop_of_done env2 vm2 (by simp [cleanup_class_loader, h])

/-- C7 amended witness: the no-op initialize at a concrete initialized
state. -/
theorem initialize_consumed_permanently_witness :
    initialize_class_loader demoEnv 7 sInit = (sInit, Except.ok ()) ∧
    initialize_class_loader demoEnv 7 (cleanup_class_loader sInit) =
      (cleanup_class_loader sInit, Except.ok ()) ∧
    (cleanup_class_loader sInit).setupRuns = sInit.setupRuns :=
  initialize_consumed_permanently demoEnv 7 sInit rfl

/-! ### C9: initialization side effects execute exactly once -/

/-- C9: any serialization of one or more initialize calls from the
library-load state executes the setup side effects exactly once (the ghost
counter ends at one), and the final shared state is exactly the state the
first call produced, so every caller afterwards observes the cached
resolver reference written by that single execution.  Once blocks
concurrent callers until its body completes, so every concurrent schedule
of initialize calls observes one of these serializations. -/
theorem initialize_exactly_once (rest : List (Env × Nat)) (env : Env) (vm : Nat) :
    runInits ((env, vm) :: rest) freshState =
      (initialize_class_loader env vm freshState).1 ∧
    (runInits ((env, vm) :: rest) freshState).setupRuns = 1 := by
  have h1 : runInits ((env, vm) :: rest) freshState =
      (initialize_class_loader env vm freshState).1 := by
    rw [runInits]
    exact runInits_noop_of_done rest _ (initialize_fresh_initDone env vm)
  refine ⟨h1, ?_⟩
  rw [h1]
  exact initialize_fresh_setupRuns env vm

/-! ### C6: propagation of foreign-call failures in from_document_file -/

/-- C6 counterexample: a platform answers the isDirectory call with an
object value; the typed boolean accessor on that answer fails, yet
from_document_file returns Ok with the directory flag defaulted to false
instead of surfacing the failed read as an error. -/
theorem dir_flag_read_defaulted :
    dirFlagEnv.callMethod (.doc "F") "isDirectory" "()Z" [] = .ok (.obj .nullv) ∧
    JValue.z (.obj .nullv) = .error .wrongJValueType ∧
    from_document_file dirFlagEnv sInit (.doc "F") =
      .ok { filename := "f", size := 5, path := "F", url := "F", is_dir := false,
            document_file := ⟨.doc "F"⟩ } := by
  decide

/-- C6 amended: in from_document_file, every foreign-call failure of the
name, size and locator reads, including their value conversions, and every
failure of the directory-flag foreign call itself, propagates to the caller
carrying the platform diagnostic unchanged; but a wrong-typed return value
of the directory-flag read is replaced by the default value false rather
than surfacing as an error (final conjunct, whose result holds whether the
boolean conversion succeeds or fails). -/
theorem from_document_file_propagates (env : Env) (s : SafState) (df : ObjVal)
    (err : SafError) (hdf : df.isNull = false) (hge : get_env env s = .ok ()) :
    (env.callMethod df "getName" "()Ljava/lang/String;" [] = .error err →
      from_document_file env s df = .error err) ∧
    (∀ v1 o1, (env.callMethod df "getName" "()Ljava/lang/String;" [] = .ok v1 ∧
        v1.l = .ok o1 ∧ env.getString o1 = .error err) →
      from_document_file env s df = .error err) ∧
    (∀ v1 o1 nm, (env.callMethod df "getName" "()Ljava/lang/String;" [] = .ok v1 ∧
        v1.l = .ok o1 ∧ env.getString o1 = .ok nm ∧
        env.callMethod df "length" "()J" [] = .error err) →
      from_document_file env s df = .error err) ∧
    (∀ v1 o1 nm v2 sz, (env.callMethod df "getName" "()Ljava/lang/String;" [] = .ok v1 ∧
        v1.l = .ok o1 ∧ env.getString o1 = .ok nm ∧
        env.callMethod df "length" "()J" [] = .ok v2 ∧ v2.j = .ok sz ∧
        env.callMethod df "getUri" "()Landroid/net/Uri;" [] = .error err) →
      from_document_file env s df = .error err) ∧
    (∀ v1 o1 nm v2 sz v3 u, (env.callMethod df "getName" "()Ljava/lang/String;" [] = .ok v1 ∧
        v1.l = .ok o1 ∧ env.getString o1 = .ok nm ∧
        env.callMethod df "length" "()J" [] = .ok v2 ∧ v2.j = .ok sz ∧
        env.callMethod df "getUri" "()Landroid/net/Uri;" [] = .ok v3 ∧ v3.l = .ok u ∧
        env.callMethod u "getPath" "()Ljava/lang/String;" [] = .error err) →
      from_document_file env s df = .error err) ∧
    (∀ v1 o1 nm v2 sz v3 u v4 o4 pth,
      (env.callMethod df "getName" "()Ljava/lang/String;" [] = .ok v1 ∧
        v1.l = .ok o1 ∧ env.getString o1 = .ok nm ∧
        env.callMethod df "length" "()J" [] = .ok v2 ∧ v2.j = .ok sz ∧
        env.callMethod df "getUri" "()Landroid/net/Uri;" [] = .ok v3 ∧ v3.l = .ok u ∧
        env.callMethod u "getPath" "()Ljava/lang/String;" [] = .ok v4 ∧ v4.l = .ok o4 ∧
        env.getString o4 = .ok pth ∧
        env.callMethod u "toString" "()Ljava/lang/String;" [] = .error err) →
      from_document_file env s df = .error err) ∧
    (∀ v1 o1 nm v2 sz v3 u v4 o4 pth v5 o5,
      (env.callMethod df "getName" "()Ljava/lang/String;" [] = .ok v1 ∧
        v1.l = .ok o1 ∧ env.getString o1 = .ok nm ∧
        env.callMethod df "length" "()J" [] = .ok v2 ∧ v2.j = .ok sz ∧
        env.callMethod df "getUri" "()Landroid/net/Uri;" [] = .ok v3 ∧ v3.l = .ok u ∧
        env.callMethod u "getPath" "()Ljava/lang/String;" [] = .ok v4 ∧ v4.l = .ok o4 ∧
        env.getString o4 = .ok pth ∧
        env.callMethod u "toString" "()Ljava/lang/String;" [] = .ok v5 ∧ v5.l = .ok o5 ∧
        env.getString o5 = .error err) →
      from_document_file env s df = .error err) ∧
    (∀ v1 o1 nm v2 sz v3 u v4 o4 pth v5 o5 url,
      (env.callMethod df "getName" "()Ljava/lang/String;" [] = .ok v1 ∧
        v1.l = .ok o1 ∧ env.getString o1 = .ok nm ∧
        env.callMethod df "length" "()J" [] = .ok v2 ∧ v2.j = .ok sz ∧
        env.callMethod df "getUri" "()Landroid/net/Uri;" [] = .ok v3 ∧ v3.l = .ok u ∧
        env.callMethod u "getPath" "()Ljava/lang/String;" [] = .ok v4 ∧ v4.l = .ok o4 ∧
        env.getString o4 = .ok pth ∧
        env.callMethod u "toString" "()Ljava/lang/String;" [] = .ok v5 ∧ v5.l = .ok o5 ∧
        env.getString o5 = .ok url ∧
        env.callMethod df "isDirectory" "()Z" [] = .error err) →
      from_document_file env s df = .error err) ∧
    (∀ v1 o1 nm v2 sz v3 u v4 o4 pth v5 o5 url v6 gr,
      (env.callMethod df "getName" "()Ljava/lang/String;" [] = .ok v1 ∧
        v1.l = .ok o1 ∧ env.getString o1 = .ok nm ∧
        env.callMethod df "length" "()J" [] = .ok v2 ∧ v2.j = .ok sz ∧
        env.callMethod df "getUri" "()Landroid/net/Uri;" [] = .ok v3 ∧ v3.l = .ok u ∧
        env.callMethod u "getPath" "()Ljava/lang/String;" [] = .ok v4 ∧ v4.l = .ok o4 ∧
        env.getString o4 = .ok pth ∧
        env.callMethod u "toString" "()Ljava/lang/String;" [] = .ok v5 ∧ v5.l = .ok o5 ∧
        env.getString o5 = .ok url ∧
        env.callMethod df "isDirectory" "()Z" [] = .ok v6 ∧
        env.newGlobalRef df = .ok gr) →
      from_document_file env s df =
        .ok { filename := nm, size := usizeOfI64 sz, path := pth, url := url,
              is_dir := match v6.z with | .ok b => b | .error _ => false,
              document_file := gr }) := by
  refine ⟨fun h1 => ?_, fun v1 o1 h => ?_, fun v1 o1 nm h => ?_,
    fun v1 o1 nm v2 sz h => ?_, fun v1 o1 nm v2 sz v3 u h => ?_,
    fun v1 o1 nm v2 sz v3 u v4 o4 pth h => ?_,
    fun v1 o1 nm v2 sz v3 u v4 o4 pth v5 o5 h => ?_,
    fun v1 o1 nm v2 sz v3 u v4 o4 pth v5 o5 url h => ?_,
    fun v1 o1 nm v2 sz v3 u v4 o4 pth v5 o5 url v6 gr h => ?_⟩
  · simp [from_document_file, hdf, hge, h1, ebind_ok, ebind_err]
  · obtain ⟨h1, h2, h3⟩ := h
    simp [from_document_file, hdf, hge, h1, h2, h3, ebind_ok, ebind_err]
  · obtain ⟨h1, h2, h3, h4⟩ := h
    simp [from_document_file, hdf, hge, h1, h2, h3, h4, ebind_ok, ebind_err]
  · obtain ⟨h1, h2, h3, h4, h5, h6⟩ := h
    simp [from_document_file, hdf, hge, h1, h2, h3, h4, h5, h6, ebind_ok, ebind_err]
  · obtain ⟨h1, h2, h3, h4, h5, h6, h7, h8⟩ := h
    simp [from_document_file, hdf, hge, h1, h2, h3, h4, h5, h6, h7, h8,
      ebind_ok, ebind_err]
  · obtain ⟨h1, h2, h3, h4, h5, h6, h7, h8, h9, h10, h11⟩ := h
    simp [from_document_file, hdf, hge, h1, h2, h3, h4, h5, h6, h7, h8, h9, h10,
      h11, ebind_ok, ebind_err]
  · obtain ⟨h1, h2, h3, h4, h5, h6, h7, h8, h9, h10, h11, h12, h13⟩ := h
    simp [from_document_file, hdf, hge, h1, h2, h3, h4, h5, h6, h7, h8, h9, h10,
      h11, h12, h13, ebind_ok, ebind_err]
  · obtain ⟨h1, h2, h3, h4, h5, h6, h7, h8, h9, h10, h11, h12, h13, h14⟩ := h
    simp [from_document_file, hdf, hge, h1, h2, h3, h4, h5, h6, h7, h8, h9, h10,
      h11, h12, h13, h14, ebind_ok, ebind_err]
  · obtain ⟨h1, h2, h3, h4, h5, h6, h7, h8, h9, h10, h11, h12, h13, h14, h15⟩ := h
    simp [from_document_file, hdf, hge, h1, h2, h3, h4, h5, h6, h7, h8, h9, h10,
      h11, h12, h13, h14, h15, ebind_ok, ebind_err, epure_eq_ok]

/-- C6 amended witness: the getName failure propagates its platform
diagnostic at a concrete platform, by the first conjunct. -/
theorem from_document_file_propagates_witness :
    from_document_file nameFailEnv sInit (.doc "F") = .error (.platform 9) :=
  (from_document_file_propagates nameFailEnv sInit (.doc "F") (.platform 9)
    rfl rfl).1 (by decide)
